import Mathlib

/-!
Verification of the market-data ingestion subsystem: the Delta exchange
connector (`app/modules/data_service/clients/delta_client.py`), the shared
connector loop (`clients/base_client.py`), the ZMQ pub/sub broker
(`services/broker.py`) and the stream manager (`services/streamer.py`).

The Python code is shallowly embedded: JSON scalar values become `JValue`,
a parsed JSON object (a dict) becomes an association list `Msg`, Python's
`float(...)` coercion becomes `pyFloat` (returning `Except` because it can
raise `TypeError`/`ValueError`), and each method becomes a Lean function on
explicit state.  Exceptions are modelled with `Except PyErr`; outcomes of
the external transport (socket send, address bind) are supplied as oracle
arguments of type `Except PyErr Unit`.  Python floats are modelled as exact
rationals: every numeric literal appearing in the claims is a short decimal,
and no claim depends on binary rounding.
-/

/-- Python exception classes that the embedded code can raise or observe. -/
inductive PyErr : Type
  | typeError
  | valueError
  | oserror
  deriving DecidableEq, Repr

/-- A JSON scalar value as found in a parsed vendor message: a string, a
number, or null.  `null` also stands for Python's `None`, which is what
`dict.get` returns for a missing key. -/
inductive JValue : Type
  | str (s : String)
  | num (q : ℚ)
  | null
  deriving DecidableEq, Repr

/-- A parsed JSON object (Python dict with string keys), as an association
list.  The first binding of a key wins, matching a dict's single binding. -/
abbrev Msg : Type := List (String × JValue)

/-- Python `message.get(key)`: the bound value, or `None` (here `JValue.null`)
when the key is absent. -/
def Msg.get (message : Msg) (key : String) : JValue :=
  match message with
  | [] => JValue.null
  | (k, v) :: rest => if k = key then v else Msg.get rest key

/-- Python `message.get(key, default)`: the bound value, or `default` when
the key is absent. -/
def Msg.getD (message : Msg) (key : String) (dflt : JValue) : JValue :=
  match message with
  | [] => dflt
  | (k, v) :: rest => if k = key then v else Msg.getD rest key dflt

/-- The numeric value of one decimal digit character. -/
def digitVal (c : Char) : Option ℕ :=
  if c.isDigit then some (c.toNat - 48) else none

/-- Reads a digit string as a natural number; `none` if any character is not
a digit.  An empty list reads as 0 (callers rule that case out). -/
def parseNatDigits (cs : List Char) : Option ℕ :=
  cs.foldl (fun acc c =>
    match acc, digitVal c with
    | some n, some d => some (n * 10 + d)
    | _, _ => none) (some 0)

/-- Splits a character list into its longest digit prefix and the rest. -/
def takeDigits : List Char → List Char × List Char
  | [] => ([], [])
  | c :: cs =>
    if c.isDigit then
      let p := takeDigits cs
      (c :: p.1, p.2)
    else ([], c :: cs)

/-- Parses an unsigned decimal literal `digits[.digits]` into an exact
rational; `none` for anything else. -/
def parseUnsignedDecimal (cs : List Char) : Option ℚ :=
  match takeDigits cs with
  | (ip, []) =>
    if ip.isEmpty then none
    else (parseNatDigits ip).map (fun n => (n : ℚ))
  | (ip, c :: fp) =>
    if c = '.' ∧ fp.all Char.isDigit ∧ (ip ≠ [] ∨ fp ≠ []) then
      match parseNatDigits ip, parseNatDigits fp with
      | some n, some f => some ((n : ℚ) + (f : ℚ) / (10 : ℚ) ^ fp.length)
      | _, _ => none
    else none

/-- Parses a signed decimal literal, the grammar accepted here for Python's
`float(str)`: an optional sign, then `digits[.digits]`.  The vendor feeds
and every input in the spec's scenarios use this plain decimal form; other
forms Python would accept (exponents, `inf`, `nan`) are out of scope and
read as a parse failure. -/
def parseDecimal (s : String) : Option ℚ :=
  match s.toList with
  | '-' :: rest => (parseUnsignedDecimal rest).map (fun q => -q)
  | '+' :: rest => parseUnsignedDecimal rest
  | cs => parseUnsignedDecimal cs

/-- Python's `float(x)` on a JSON scalar: a number passes through, a string
is parsed as a decimal (raising `ValueError` when unparseable), and `None`
raises `TypeError` — exactly what `float(message.get("price"))` does when
the key is missing. -/
def pyFloat : JValue → Except PyErr ℚ
  | JValue.num q => Except.ok q
  | JValue.str s =>
    match parseDecimal s with
    | some q => Except.ok q
    | none => Except.error PyErr.valueError
  | JValue.null => Except.error PyErr.typeError

/-- The unified Trade record built by `normalize_message` for an
`all_trades` message.  `symbol` and `timestamp` are copied verbatim
(`message.get(...)`, no coercion), so they keep type `JValue`. -/
structure Trade : Type where
  exchange : String
  symbol : JValue
  price : ℚ
  amount : ℚ
  timestamp : JValue
  side : String
  deriving DecidableEq, Repr

/-- The unified OHLCV record built for a `candlestick_1m` message.  The
field `open` is spelled `open_` because `open` is a Lean keyword. -/
structure OHLCV : Type where
  exchange : String
  symbol : JValue
  open_ : ℚ
  high : ℚ
  low : ℚ
  close : ℚ
  volume : ℚ
  timestamp : JValue
  deriving DecidableEq, Repr

/-- The unified Ticker record built for a `v2/ticker` message. -/
structure Ticker : Type where
  exchange : String
  symbol : JValue
  bid : ℚ
  ask : ℚ
  last : ℚ
  mark_price : ℚ
  volume_24h : ℚ
  timestamp : JValue
  deriving DecidableEq, Repr

/-- The unified message schema: the tagged union of the three record kinds. -/
inductive NormalizedMessage : Type
  | trade (t : Trade)
  | ohlcv (o : OHLCV)
  | ticker (k : Ticker)
  deriving DecidableEq, Repr

/-- The Python value `normalize_message` returns when it returns something:
a bare dict (the `all_trades` branch returns the Trade dict directly), a
2-tuple `(topic_suffix, dict)`, or — allowed by the base-class loop though
never produced by the Delta client — a list of such tuples. -/
inductive NormReturn : Type
  | bareDict (t : Trade)
  | tup (suffix : String) (m : NormalizedMessage)
  | listTup (l : List (String × NormalizedMessage))
  deriving DecidableEq, Repr

/-- DeltaExchangeClient.normalize_message (`delta_client.py`, lines 30-68).
Dispatches on `message.get("type")`.  An `all_trades` message yields the
bare Trade dict; `candlestick_1m` yields `("ohlcv", dict)`; `v2/ticker`
yields `("ticker", dict)` with default 0 for absent optional fields; any
other type falls through to `None`.  Each `float(...)` call is `pyFloat`,
sequenced in the source's evaluation order so that the first failing
coercion raises.  The function reads nothing but its argument. -/
def DeltaExchangeClient.normalize_message (message : Msg) :
    Except PyErr (Option NormReturn) :=
  if Msg.get message "type" = JValue.str "all_trades" then
    match pyFloat (Msg.get message "price") with
    | Except.error e => Except.error e
    | Except.ok price =>
      match pyFloat (Msg.get message "size") with
      | Except.error e => Except.error e
      | Except.ok amount =>
        Except.ok (some (NormReturn.bareDict
          { exchange := "delta"
            symbol := Msg.get message "symbol"
            price := price
            amount := amount
            timestamp := Msg.get message "timestamp"
            side :=
              if Msg.get message "buyer_role" = JValue.str "maker" then "sell"
              else "buy" }))
  else if Msg.get message "type" = JValue.str "candlestick_1m" then
    match pyFloat (Msg.get message "open") with
    | Except.error e => Except.error e
    | Except.ok o =>
      match pyFloat (Msg.get message "high") with
      | Except.error e => Except.error e
      | Except.ok h =>
        match pyFloat (Msg.get message "low") with
        | Except.error e => Except.error e
        | Except.ok l =>
          match pyFloat (Msg.get message "close") with
          | Except.error e => Except.error e
          | Except.ok c =>
            match pyFloat (Msg.get message "volume") with
            | Except.error e => Except.error e
            | Except.ok v =>
              Except.ok (some (NormReturn.tup "ohlcv" (NormalizedMessage.ohlcv
                { exchange := "delta"
                  symbol := Msg.get message "symbol"
                  open_ := o
                  high := h
                  low := l
                  close := c
                  volume := v
                  timestamp := Msg.get message "timestamp" })))
  else if Msg.get message "type" = JValue.str "v2/ticker" then
    match pyFloat (Msg.getD message "best_bid" (JValue.num 0)) with
    | Except.error e => Except.error e
    | Except.ok bid =>
      match pyFloat (Msg.getD message "best_ask" (JValue.num 0)) with
      | Except.error e => Except.error e
      | Except.ok ask =>
        match pyFloat (Msg.getD message "last_price" (JValue.num 0)) with
        | Except.error e => Except.error e
        | Except.ok lst =>
          match pyFloat (Msg.getD message "mark_price" (JValue.num 0)) with
          | Except.error e => Except.error e
          | Except.ok mk =>
            match pyFloat (Msg.getD message "volume_24h" (JValue.num 0)) with
            | Except.error e => Except.error e
            | Except.ok vol =>
              Except.ok (some (NormReturn.tup "ticker" (NormalizedMessage.ticker
                { exchange := "delta"
                  symbol := Msg.get message "symbol"
                  bid := bid
                  ask := ask
                  last := lst
                  mark_price := mk
                  volume_24h := vol
                  timestamp := Msg.get message "timestamp" })))
  else
    Except.ok none

/-- ZMQBroker state (`broker.py`): the configured bind address and the
`is_running` flag, set by a successful `start()` and cleared by `stop()`.
Being "bound" in the spec's sense coincides with `is_running = true`. -/
structure BrokerState : Type where
  address : String
  is_running : Bool
  deriving DecidableEq, Repr

/-- The broker constructed by `ZMQBroker.__init__` with its default
address: not yet bound, not running. -/
def ZMQBroker.init : BrokerState :=
  { address := "ipc:///tmp/data_streamer.ipc", is_running := false }

/-- ZMQBroker.start (`broker.py`, lines 15-22): attempts to bind the
address — the outcome is the `bindResult` oracle — and on success sets
`is_running`.  On failure the exception is logged and re-raised
(`raise`), so it propagates to the caller. -/
def ZMQBroker.start (b : BrokerState) (bindResult : Except PyErr Unit) :
    Except PyErr BrokerState :=
  match bindResult with
  | Except.ok _ => Except.ok { b with is_running := true }
  | Except.error e => Except.error e

/-- ZMQBroker.publish (`broker.py`, lines 24-34).  Returns the list of
transmitted wire units, each a `(topic, payload)` pair — the source sends
the pair as two UTF-8 frames, with the payload JSON-serialized; the byte
encoding is kept abstract here.  When `is_running` is false it returns at
once, transmitting nothing.  Otherwise it sends; a send failure (the
`sendResult` oracle) is caught by the bare `except`, logged, and swallowed,
so the function never raises: its result is always `Except.ok`. -/
def ZMQBroker.publish (b : BrokerState) (sendResult : Except PyErr Unit)
    (topic : String) (data : NormalizedMessage) :
    Except PyErr (List (String × NormalizedMessage)) :=
  if b.is_running = false then Except.ok []
  else
    match sendResult with
    | Except.ok _ => Except.ok [(topic, data)]
    | Except.error _ => Except.ok []

/-- ZMQBroker.stop (`broker.py`, lines 36-40): clears `is_running` and
closes the socket; subsequent publishes are no-ops. -/
def ZMQBroker.stop (b : BrokerState) : BrokerState :=
  { b with is_running := false }

/-- The canonicalization step of the connector loop (`base_client.py`,
lines 41-47): `None` (and a falsy empty result) publishes nothing, a bare
dict is wrapped as the single pair `("trades", dict)`, a tuple becomes a
one-element list, and a list of tuples is used as is. -/
def emittedPairs : Option NormReturn → List (String × NormalizedMessage)
  | none => []
  | some (NormReturn.bareDict t) => [("trades", NormalizedMessage.trade t)]
  | some (NormReturn.tup s m) => [(s, m)]
  | some (NormReturn.listTup l) => l

/-- The publish loop of `base_client.py`, lines 48-52: each canonical pair
is published under the topic `topic_suffix ++ "." ++ exchange_name`, and
the transmitted wire units of all publishes are collected in order. -/
def publishAll (exch : String) (b : BrokerState) (sendResult : Except PyErr Unit) :
    List (String × NormalizedMessage) →
    Except PyErr (List (String × NormalizedMessage))
  | [] => Except.ok []
  | p :: rest =>
    match ZMQBroker.publish b sendResult (p.1 ++ "." ++ exch) p.2 with
    | Except.error e => Except.error e
    | Except.ok sent =>
      match publishAll exch b sendResult rest with
      | Except.error e => Except.error e
      | Except.ok sents => Except.ok (sent ++ sents)

/-- The body of the Delta connector's message loop for one received message
(`base_client.py`, lines 38-52, with `self` the Delta client): normalize,
canonicalize, publish each pair.  An exception from `normalize_message`
propagates (to the loop's generic handler); the result on success is the
list of transmitted wire units. -/
def processMessage (b : BrokerState) (sendResult : Except PyErr Unit)
    (message : Msg) : Except PyErr (List (String × NormalizedMessage)) :=
  match DeltaExchangeClient.normalize_message message with
  | Except.error e => Except.error e
  | Except.ok updates => publishAll "delta" b sendResult (emittedPairs updates)

/-- Observable control actions of the connector loop, used to state what the
loop does after an error: close the connection (the `async with` exit),
sleep the fixed 5-second backoff, retry the `while` loop (reconnect), or
fall out of the loop. -/
inductive Act : Type
  | closeConn
  | sleep5
  | reconnect
  | exitLoop
  deriving DecidableEq, Repr

/-- What the connector loop does when an exception escapes the connection
block (`base_client.py`, lines 53-56 and the `while` header on line 30):
the connection is closed as the exception unwinds the `async with`; the
`except` handler sleeps 5 seconds only if `self.is_running` is still true;
then the `while self.is_running` check either reconnects or exits.  The
flag is read twice, so both reads are parameters. -/
def onLoopError (running_at_if : Bool) (running_at_while : Bool) : List Act :=
  Act.closeConn ::
    ((if running_at_if then [Act.sleep5] else []) ++
      (if running_at_while then [Act.reconnect] else [Act.exitLoop]))

/-- One step of the connector in the STREAMING state on a received message:
on success the transmitted units are emitted and the loop stays streaming
(no control action); on an exception the loop drops the connection and
runs the error path with the current `is_running` flag. -/
def streamingStep (is_running : Bool) (b : BrokerState)
    (sendResult : Except PyErr Unit) (message : Msg) :
    List (String × NormalizedMessage) × List Act :=
  match processMessage b sendResult message with
  | Except.ok sent => (sent, [])
  | Except.error _ => ([], onLoopError is_running is_running)

/-- The mutable state of a BaseExchangeClient: the `is_running` flag and
whether `self.ws` currently holds an open connection. -/
structure ClientState : Type where
  is_running : Bool
  ws_open : Bool
  deriving DecidableEq, Repr

/-- BaseExchangeClient.stop (`base_client.py`, lines 58-61): clears
`is_running`, then force-closes the active connection if there is one. -/
def BaseExchangeClient.stop (s : ClientState) : ClientState :=
  let s1 : ClientState := { s with is_running := false }
  if s1.ws_open then { s1 with ws_open := false } else s1

/-- StreamerManager state (`streamer.py`): the owned broker, the registered
client (exchange) names, and the names of the spawned connector tasks. -/
structure ManagerState : Type where
  broker : BrokerState
  clients : List String
  tasks : List String
  deriving DecidableEq, Repr

/-- The manager constructed by `StreamerManager.__init__`: a fresh broker
and the single Delta client; no tasks yet. -/
def StreamerManager.init : ManagerState :=
  { broker := ZMQBroker.init, clients := ["delta"], tasks := [] }

/-- StreamerManager.start (`streamer.py`, lines 16-24): starts (binds) the
broker first; if that raises, the exception propagates and the task list is
untouched — the `for` loop creating tasks is never reached.  On success one
task per client is appended. -/
def StreamerManager.start (m : ManagerState) (bindResult : Except PyErr Unit) :
    Except PyErr Unit × ManagerState :=
  match ZMQBroker.start m.broker bindResult with
  | Except.error e => (Except.error e, m)
  | Except.ok b =>
    (Except.ok (), { m with broker := b, tasks := m.tasks ++ m.clients })

/-- The broker state after a successful `start()`: bound and running. -/
def brokerUp : BrokerState :=
  { address := "ipc:///tmp/data_streamer.ipc", is_running := true }

/-- Whether a `normalize_message` return value is a `(topic_suffix, message)`
tuple (as opposed to a bare dict or a list). -/
def NormReturn.isPair : NormReturn → Bool
  | NormReturn.tup _ _ => true
  | _ => false

/-- Conformance of a `normalize_message` result to the unified schema for
the message it came from: the result's kind matches the message's `type`
tag, the exchange field is `"delta"`, the numeric fields are exactly the
`float(...)` coercions of the vendor fields (no clamping), and a Trade's
side is one of `"buy"`/`"sell"`. -/
def conformsTo (message : Msg) (u : NormReturn) : Prop :=
  match u with
  | NormReturn.bareDict t =>
    Msg.get message "type" = JValue.str "all_trades" ∧
    t.exchange = "delta" ∧
    pyFloat (Msg.get message "price") = Except.ok t.price ∧
    pyFloat (Msg.get message "size") = Except.ok t.amount ∧
    (t.side = "buy" ∨ t.side = "sell")
  | NormReturn.tup sfx m =>
    match sfx, m with
    | "ohlcv", NormalizedMessage.ohlcv o =>
      Msg.get message "type" = JValue.str "candlestick_1m" ∧
      o.exchange = "delta" ∧
      pyFloat (Msg.get message "volume") = Except.ok o.volume
    | "ticker", NormalizedMessage.ticker k =>
      Msg.get message "type" = JValue.str "v2/ticker" ∧
      k.exchange = "delta" ∧
      pyFloat (Msg.getD message "volume_24h" (JValue.num 0)) =
        Except.ok k.volume_24h
    | _, _ => False
  | NormReturn.listTup _ => False

/-- The spec's scenario input: a maker-buyer BTCUSD trade of size 0.01 at
price 50000.5. -/
def msgTradeScenario : Msg :=
  [("type", JValue.str "all_trades"),
   ("symbol", JValue.str "BTCUSD"),
   ("price", JValue.str "50000.5"),
   ("size", JValue.str "0.01"),
   ("timestamp", JValue.num 123),
   ("buyer_role", JValue.str "maker")]

/-- The Trade record the scenario input normalizes to. -/
def tradeScenario : Trade :=
  { exchange := "delta"
    symbol := JValue.str "BTCUSD"
    price := 50000.5
    amount := 0.01
    timestamp := JValue.num 123
    side := "sell" }

/-- A recognized trade message carrying a negative vendor price. -/
def msgNegativePrice : Msg :=
  [("type", JValue.str "all_trades"),
   ("symbol", JValue.str "BTCUSD"),
   ("price", JValue.str "-1"),
   ("size", JValue.str "1"),
   ("timestamp", JValue.num 0)]

/-- The Trade record the negative-price message normalizes to. -/
def tradeNegativePrice : Trade :=
  { exchange := "delta"
    symbol := JValue.str "BTCUSD"
    price := -1
    amount := 1
    timestamp := JValue.num 0
    side := "buy" }

/-- A message of a type the Delta client does not recognize (the exchange's
subscription acknowledgement). -/
def msgUnrecognized : Msg :=
  [("type", JValue.str "subscriptions"),
   ("symbol", JValue.str "BTCUSD")]

/-- A recognized trade message with the required `price` field missing. -/
def msgMissingPrice : Msg :=
  [("type", JValue.str "all_trades")]

/-- A recognized trade message with no `buyer_role` field at all. -/
def msgNoBuyerRole : Msg :=
  [("type", JValue.str "all_trades"),
   ("symbol", JValue.str "ETHUSD"),
   ("price", JValue.num 2000),
   ("size", JValue.num 3),
   ("timestamp", JValue.num 7)]

/-- The Trade record the no-buyer-role message normalizes to. -/
def tradeNoBuyerRole : Trade :=
  { exchange := "delta"
    symbol := JValue.str "ETHUSD"
    price := 2000
    amount := 3
    timestamp := JValue.num 7
    side := "buy" }

/-- Shape of every value `normalize_message` successfully returns: it came
from one of the three recognized branches, with the fields the branch
computes. -/
theorem normalize_shape (message : Msg) (u : NormReturn)
    (h : DeltaExchangeClient.normalize_message message = Except.ok (some u)) :
    (∃ t : Trade, u = NormReturn.bareDict t ∧
      Msg.get message "type" = JValue.str "all_trades" ∧
      t.exchange = "delta" ∧
      pyFloat (Msg.get message "price") = Except.ok t.price ∧
      pyFloat (Msg.get message "size") = Except.ok t.amount ∧
      t.side = (if Msg.get message "buyer_role" = JValue.str "maker"
        then "sell" else "buy")) ∨
    (∃ o : OHLCV, u = NormReturn.tup "ohlcv" (NormalizedMessage.ohlcv o) ∧
      Msg.get message "type" = JValue.str "candlestick_1m" ∧
      o.exchange = "delta" ∧
      pyFloat (Msg.get message "volume") = Except.ok o.volume) ∨
    (∃ k : Ticker, u = NormReturn.tup "ticker" (NormalizedMessage.ticker k) ∧
      Msg.get message "type" = JValue.str "v2/ticker" ∧
      k.exchange = "delta" ∧
      pyFloat (Msg.getD message "volume_24h" (JValue.num 0)) =
        Except.ok k.volume_24h) := by
  unfold DeltaExchangeClient.normalize_message at h
  split at h
  · rename_i h1
    left
    split at h
    · simp at h
    · rename_i price hp
      split at h
      · simp at h
      · rename_i amount hs
        injection h with h2
        injection h2 with h3
        refine ⟨_, h3.symm, h1, ?_, ?_, ?_, ?_⟩
        · rfl
        · exact hp
        · exact hs
        · rfl
  · split at h
    · rename_i h2
      right; left
      split at h
      · simp at h
      · rename_i o ho
        split at h
        · simp at h
        · rename_i hh hhh
          split at h
          · simp at h
          · rename_i l hl
            split at h
            · simp at h
            · rename_i c hc
              split at h
              · simp at h
              · rename_i v hv
                injection h with h4
                injection h4 with h5
                refine ⟨_, h5.symm, h2, ?_, ?_⟩
                · rfl
                · exact hv
    · split at h
      · rename_i h3
        right; right
        split at h
        · simp at h
        · rename_i bid hb
          split at h
          · simp at h
          · rename_i ask ha
            split at h
            · simp at h
            · rename_i lst hlst
              split at h
              · simp at h
              · rename_i mk hmk
                split at h
                · simp at h
                · rename_i vol hvol
                  injection h with h6
                  injection h6 with h7
                  refine ⟨_, h7.symm, h3, ?_, ?_⟩
                  · rfl
                  · exact hvol
      · simp at h

/-- A single publish transmits either nothing or exactly the unit it was
given, and never raises. -/
theorem publish_sent_cases (b : BrokerState) (sendResult : Except PyErr Unit)
    (topic : String) (data : NormalizedMessage) :
    ZMQBroker.publish b sendResult topic data = Except.ok [] ∨
    ZMQBroker.publish b sendResult topic data = Except.ok [(topic, data)] := by
  unfold ZMQBroker.publish
  split
  · exact Or.inl rfl
  · split
    · exact Or.inr rfl
    · exact Or.inl rfl

/-- A publish on a broker that is not running transmits nothing. -/
theorem publish_not_running (b : BrokerState) (sendResult : Except PyErr Unit)
    (topic : String) (data : NormalizedMessage)
    (h : b.is_running = false) :
    ZMQBroker.publish b sendResult topic data = Except.ok [] := by
  unfold ZMQBroker.publish
  rw [h]
  rfl

/-- Every wire unit the publish loop transmits comes from one of its input
pairs, with the topic `suffix ++ "." ++ exchange`; and a broker that is not
running transmits nothing at all. -/
theorem publishAll_out (exch : String) (b : BrokerState)
    (sendResult : Except PyErr Unit)
    (pairs : List (String × NormalizedMessage))
    (out : List (String × NormalizedMessage))
    (h : publishAll exch b sendResult pairs = Except.ok out) :
    (∀ q ∈ out, ∃ p ∈ pairs, q = (p.1 ++ "." ++ exch, p.2)) ∧
    (b.is_running = false → out = []) := by
  induction pairs generalizing out with
  | nil =>
    unfold publishAll at h
    injection h with h
    subst h
    refine ⟨fun q hq => absurd hq (List.not_mem_nil q), fun _ => rfl⟩
  | cons p rest ih =>
    unfold publishAll at h
    cases hrec : publishAll exch b sendResult rest with
    | error e =>
      rcases publish_sent_cases b sendResult (p.1 ++ "." ++ exch) p.2 with hc | hc <;>
        simp only [hc, hrec] at h <;> exact Except.noConfusion h
    | ok sents =>
      obtain ⟨ihmem, ihnr⟩ := ih sents hrec
      rcases publish_sent_cases b sendResult (p.1 ++ "." ++ exch) p.2 with hc | hc <;>
        simp only [hc, hrec] at h
      · injection h with h
        subst h
        refine ⟨?_, fun hbr => ?_⟩
        · intro q hq
          simp only [List.nil_append] at hq
          obtain ⟨p2, hp2, hq2⟩ := ihmem q hq
          exact ⟨p2, List.mem_cons_of_mem p hp2, hq2⟩
        · simpa using ihnr hbr
      · injection h with h
        subst h
        refine ⟨?_, fun hbr => ?_⟩
        · intro q hq
          rcases List.mem_append.mp hq with hq1 | hq2
          · rcases List.mem_singleton.mp hq1 with rfl
            exact ⟨p, List.mem_cons_self p rest, rfl⟩
          · obtain ⟨p2, hp2, hq3⟩ := ihmem q hq2
            exact ⟨p2, List.mem_cons_of_mem p hp2, hq3⟩
        · have h1 := publish_not_running b sendResult (p.1 ++ "." ++ exch) p.2 hbr
          rw [h1] at hc
          injection hc with hc
          cases hc

/-- Evaluation of `normalize_message` on the spec's trade scenario input. -/
theorem normalize_msgTradeScenario_eval :
    DeltaExchangeClient.normalize_message msgTradeScenario =
      Except.ok (some (NormReturn.bareDict tradeScenario)) := by
  simp +decide [DeltaExchangeClient.normalize_message, msgTradeScenario,
    tradeScenario, Msg.get, pyFloat, parseDecimal, parseUnsignedDecimal,
    parseNatDigits, digitVal, takeDigits, String.toList]
  norm_num

/-- Evaluation of the full message step on the trade scenario input against
a bound, running broker with a healthy transport. -/
theorem processMessage_msgTradeScenario_eval :
    processMessage brokerUp (Except.ok ()) msgTradeScenario =
      Except.ok [("trades.delta", NormalizedMessage.trade tradeScenario)] := by
  have h := normalize_msgTradeScenario_eval
  simp only [processMessage, h, emittedPairs, publishAll, ZMQBroker.publish, brokerUp]
  rfl

/-- C1: the Delta connector normalizes the scenario input
`{"type":"all_trades","symbol":"BTCUSD","price":"50000.5","size":"0.01",
"timestamp":123,"buyer_role":"maker"}` to a Trade with exchange "delta",
symbol BTCUSD, price 50000.5, amount 0.01, timestamp 123 and side "sell"
(maker buyer means the aggressor sold), and the connector loop publishes it
under the topic "trades.delta". -/
theorem delta_trade_scenario_publishes_trades_delta :
    DeltaExchangeClient.normalize_message msgTradeScenario =
      Except.ok (some (NormReturn.bareDict tradeScenario)) ∧
    tradeScenario.exchange = "delta" ∧
    tradeScenario.symbol = JValue.str "BTCUSD" ∧
    tradeScenario.price = 50000.5 ∧
    tradeScenario.amount = 0.01 ∧
    tradeScenario.timestamp = JValue.num 123 ∧
    tradeScenario.side = "sell" ∧
    streamingStep true brokerUp (Except.ok ()) msgTradeScenario =
      ([("trades.delta", NormalizedMessage.trade tradeScenario)], []) := by
  refine ⟨normalize_msgTradeScenario_eval, rfl, rfl, rfl, rfl, rfl, rfl, ?_⟩
  simp only [streamingStep, processMessage_msgTradeScenario_eval]

/-- C2 counterexample: a recognized `all_trades` message whose vendor price
is the string "-1" normalizes to a Trade whose price field is negative, so
the claim that price/amount/volume fields of normalized values are always
non-negative is false of the code. -/
theorem normalize_negative_price_counterexample :
    DeltaExchangeClient.normalize_message msgNegativePrice =
      Except.ok (some (NormReturn.bareDict tradeNegativePrice)) ∧
    tradeNegativePrice.price < 0 := by
  constructor
  · simp +decide [DeltaExchangeClient.normalize_message, msgNegativePrice,
      tradeNegativePrice, Msg.get, pyFloat, parseDecimal,
      parseUnsignedDecimal, parseNatDigits, digitVal, takeDigits,
      String.toList]
  · norm_num [tradeNegativePrice]

/-- C2 amended: every value `normalize_message` successfully returns
conforms to the unified schema for the message's recognized type — the
result kind matches the `type` tag, the exchange is "delta", a Trade's side
is "buy" or "sell" — and its numeric fields are exactly the float coercions
of the vendor fields, with no clamping, so they are non-negative exactly
when the vendor values are. -/
theorem normalize_ok_conforms (message : Msg) (u : NormReturn)
    (h : DeltaExchangeClient.normalize_message message = Except.ok (some u)) :
    conformsTo message u := by
  rcases normalize_shape message u h with
    ⟨t, rfl, h1, h2, h3, h4, h5⟩ | ⟨o, rfl, h1, h2, h3⟩ | ⟨k, rfl, h1, h2, h3⟩
  · refine ⟨h1, h2, h3, h4, ?_⟩
    rw [h5]
    by_cases hb : Msg.get message "buyer_role" = JValue.str "maker"
    · rw [if_pos hb]; exact Or.inr rfl
    · rw [if_neg hb]; exact Or.inl rfl
  · exact ⟨h1, h2, h3⟩
  · exact ⟨h1, h2, h3⟩

/-- Witness for the amended C2 claim at the concrete scenario input. -/
theorem normalize_ok_conforms_witness :
    conformsTo msgTradeScenario (NormReturn.bareDict tradeScenario) :=
  normalize_ok_conforms msgTradeScenario (NormReturn.bareDict tradeScenario)
    normalize_msgTradeScenario_eval

/-- C3: a message whose `type` is none of the three recognized tags
normalizes to nothing — no value, no exception — and the connector loop
publishes nothing for it. -/
theorem unrecognized_type_no_value_no_publish (message : Msg)
    (h1 : Msg.get message "type" ≠ JValue.str "all_trades")
    (h2 : Msg.get message "type" ≠ JValue.str "candlestick_1m")
    (h3 : Msg.get message "type" ≠ JValue.str "v2/ticker") :
    DeltaExchangeClient.normalize_message message = Except.ok none ∧
    ∀ (b : BrokerState) (sendResult : Except PyErr Unit),
      processMessage b sendResult message = Except.ok [] := by
  have hn : DeltaExchangeClient.normalize_message message = Except.ok none := by
    unfold DeltaExchangeClient.normalize_message
    rw [if_neg h1, if_neg h2, if_neg h3]
  refine ⟨hn, fun b sendResult => ?_⟩
  simp only [processMessage, hn, emittedPairs, publishAll]

/-- Witness for C3 at a concrete unrecognized message (a subscription
acknowledgement). -/
theorem unrecognized_type_no_value_no_publish_witness :
    DeltaExchangeClient.normalize_message msgUnrecognized = Except.ok none ∧
    ∀ (b : BrokerState) (sendResult : Except PyErr Unit),
      processMessage b sendResult msgUnrecognized = Except.ok [] :=
  unrecognized_type_no_value_no_publish msgUnrecognized
    (by decide) (by decide) (by decide)

/-- C4: publishing on a broker that is not running (never started, or
stopped) is a no-op — no exception, nothing transmitted — and even when
running, a failing send is swallowed so publish never raises. -/
theorem publish_not_running_noop_never_raises (b : BrokerState)
    (sendResult : Except PyErr Unit) (topic : String)
    (data : NormalizedMessage) :
    (∃ out, ZMQBroker.publish b sendResult topic data = Except.ok out) ∧
    (b.is_running = false →
      ZMQBroker.publish b sendResult topic data = Except.ok []) ∧
    ZMQBroker.publish (ZMQBroker.stop b) sendResult topic data =
      Except.ok [] := by
  refine ⟨?_, publish_not_running b sendResult topic data, ?_⟩
  · rcases publish_sent_cases b sendResult topic data with hc | hc
    · exact ⟨[], hc⟩
    · exact ⟨[(topic, data)], hc⟩
  · exact publish_not_running (ZMQBroker.stop b) sendResult topic data rfl

/-- C5: if binding the broker address fails, `StreamerManager.start`
propagates the exception and leaves the task list untouched — zero
connector tasks are spawned; on a successful bind the broker is running in
the final state and the tasks are appended only then. -/
theorem start_bind_failure_propagates_no_tasks (m : ManagerState)
    (e : PyErr) :
    StreamerManager.start m (Except.error e) = (Except.error e, m) ∧
    (StreamerManager.start StreamerManager.init (Except.error e)).2.tasks
      = [] ∧
    (StreamerManager.start m (Except.ok ())).2.broker.is_running = true ∧
    (StreamerManager.start m (Except.ok ())).2.tasks
      = m.tasks ++ m.clients := by
  exact ⟨rfl, rfl, rfl, rfl⟩

/-- C6: `stop()` clears `running` and force-closes the active connection;
when the resulting read error surfaces in the loop with `running` false,
the error path executes no 5-second backoff sleep and no reconnect — the
loop just closes the connection and exits. -/
theorem stop_mid_streaming_exits_without_backoff (s : ClientState) :
    (BaseExchangeClient.stop s).is_running = false ∧
    (BaseExchangeClient.stop s).ws_open = false ∧
    onLoopError (BaseExchangeClient.stop s).is_running
        (BaseExchangeClient.stop s).is_running =
      [Act.closeConn, Act.exitLoop] ∧
    Act.sleep5 ∉ onLoopError (BaseExchangeClient.stop s).is_running
        (BaseExchangeClient.stop s).is_running ∧
    Act.reconnect ∉ onLoopError (BaseExchangeClient.stop s).is_running
        (BaseExchangeClient.stop s).is_running := by
  have h1 : (BaseExchangeClient.stop s).is_running = false := by
    cases s with
    | mk r w => cases w <;> rfl
  have h2 : (BaseExchangeClient.stop s).ws_open = false := by
    cases s with
    | mk r w => cases w <;> rfl
  rw [h1]
  exact ⟨rfl, h2, rfl, by decide, by decide⟩

/-- C7 counterexample: on the scenario trade input, `normalize_message`
returns a bare Trade dict, not a `(topic_suffix, message)` pair, so the
claim that every non-empty result consists of such pairs is false of the
code (the loop, not the normalizer, wraps it as `("trades", dict)`). -/
theorem normalize_trade_bare_dict_not_pair :
    DeltaExchangeClient.normalize_message msgTradeScenario =
      Except.ok (some (NormReturn.bareDict tradeScenario)) ∧
    NormReturn.isPair (NormReturn.bareDict tradeScenario) = false :=
  ⟨normalize_msgTradeScenario_eval, rfl⟩

/-- C7 amended: every non-empty `normalize_message` result, after the
connector loop's canonicalization (which wraps a bare Trade dict as
`("trades", dict)`), is exactly one `(topic_suffix, message)` pair whose
suffix is trades, ohlcv or ticker; the function itself is a pure mapping of
the message. -/
theorem normalize_result_canonical_pairs (message : Msg) (u : NormReturn)
    (h : DeltaExchangeClient.normalize_message message = Except.ok (some u)) :
    (emittedPairs (some u)).length = 1 ∧
    (∀ p ∈ emittedPairs (some u),
      p.1 = "trades" ∨ p.1 = "ohlcv" ∨ p.1 = "ticker") ∧
    ∀ t : Trade, u = NormReturn.bareDict t →
      emittedPairs (some u) = [("trades", NormalizedMessage.trade t)] := by
  rcases normalize_shape message u h with
    ⟨t, rfl, _⟩ | ⟨o, rfl, _⟩ | ⟨k, rfl, _⟩
  · refine ⟨rfl, ?_, ?_⟩
    · intro p hp
      rcases List.mem_singleton.mp hp with rfl
      exact Or.inl rfl
    · intro t2 ht2
      injection ht2 with ht2
      subst ht2
      rfl
  · refine ⟨rfl, ?_, ?_⟩
    · intro p hp
      rcases List.mem_singleton.mp hp with rfl
      exact Or.inr (Or.inl rfl)
    · intro t2 ht2
      simp at ht2
  · refine ⟨rfl, ?_, ?_⟩
    · intro p hp
      rcases List.mem_singleton.mp hp with rfl
      exact Or.inr (Or.inr rfl)
    · intro t2 ht2
      simp at ht2

/-- Witness for the amended C7 claim at the scenario trade input. -/
theorem normalize_result_canonical_pairs_witness :
    (emittedPairs (some (NormReturn.bareDict tradeScenario))).length = 1 ∧
    (∀ p ∈ emittedPairs (some (NormReturn.bareDict tradeScenario)),
      p.1 = "trades" ∨ p.1 = "ohlcv" ∨ p.1 = "ticker") ∧
    ∀ t : Trade, NormReturn.bareDict tradeScenario = NormReturn.bareDict t →
      emittedPairs (some (NormReturn.bareDict tradeScenario)) =
        [("trades", NormalizedMessage.trade t)] :=
  normalize_result_canonical_pairs msgTradeScenario
    (NormReturn.bareDict tradeScenario) normalize_msgTradeScenario_eval

/-- C8: every wire unit the Delta connector's message step transmits has a
topic of the form `kind ++ "." ++ "delta"` with kind one of trades, ohlcv,
ticker; and when the broker is not bound (not running) nothing is
transmitted at all. -/
theorem published_topics_wellformed (b : BrokerState)
    (sendResult : Except PyErr Unit) (message : Msg)
    (out : List (String × NormalizedMessage))
    (h : processMessage b sendResult message = Except.ok out) :
    (∀ q ∈ out, ∃ kind,
      (kind = "trades" ∨ kind = "ohlcv" ∨ kind = "ticker") ∧
      q.1 = kind ++ "." ++ "delta") ∧
    (b.is_running = false → out = []) := by
  unfold processMessage at h
  cases hn : DeltaExchangeClient.normalize_message message with
  | error e =>
    rw [hn] at h
    exact Except.noConfusion h
  | ok updates =>
    simp only [hn] at h
    obtain ⟨hmem, hnr⟩ :=
      publishAll_out "delta" b sendResult (emittedPairs updates) out h
    refine ⟨?_, hnr⟩
    intro q hq
    obtain ⟨p, hp, rfl⟩ := hmem q hq
    refine ⟨p.1, ?_, rfl⟩
    cases updates with
    | none => simp [emittedPairs] at hp
    | some u =>
      rcases normalize_shape message u hn with
        ⟨t, rfl, _⟩ | ⟨o, rfl, _⟩ | ⟨k, rfl, _⟩
      · rcases List.mem_singleton.mp hp with rfl
        exact Or.inl rfl
      · rcases List.mem_singleton.mp hp with rfl
        exact Or.inr (Or.inl rfl)
      · rcases List.mem_singleton.mp hp with rfl
        exact Or.inr (Or.inr rfl)

/-- Witness for C8 at the scenario trade input against a bound broker. -/
theorem published_topics_wellformed_witness :
    (∀ q ∈ [("trades.delta", NormalizedMessage.trade tradeScenario)],
      ∃ kind, (kind = "trades" ∨ kind = "ohlcv" ∨ kind = "ticker") ∧
        q.1 = kind ++ "." ++ "delta") ∧
    (brokerUp.is_running = false →
      [("trades.delta", NormalizedMessage.trade tradeScenario)] = []) :=
  published_topics_wellformed brokerUp (Except.ok ()) msgTradeScenario
    [("trades.delta", NormalizedMessage.trade tradeScenario)]
    processMessage_msgTradeScenario_eval

/-- C9: a recognized trade message missing its required `price` field makes
`normalize_message` raise (TypeError from `float(None)`) rather than return
nothing; in the loop the generic handler catches it, the connection is
dropped, and — still running — the 5-second backoff and a reconnect
follow. -/
theorem malformed_trade_message_raises_then_reconnects :
    DeltaExchangeClient.normalize_message msgMissingPrice =
      Except.error PyErr.typeError ∧
    streamingStep true brokerUp (Except.ok ()) msgMissingPrice =
      ([], [Act.closeConn, Act.sleep5, Act.reconnect]) := by
  have h : DeltaExchangeClient.normalize_message msgMissingPrice =
      Except.error PyErr.typeError := by rfl
  refine ⟨h, ?_⟩
  simp only [streamingStep, processMessage, h, onLoopError]
  decide

/-- C10: for a successfully normalized trade, side is "sell" exactly when
the vendor's `buyer_role` equals "maker"; any other value — including a
missing field — yields side "buy". -/
theorem trade_side_sell_iff_buyer_maker (message : Msg) (t : Trade)
    (h : DeltaExchangeClient.normalize_message message =
      Except.ok (some (NormReturn.bareDict t))) :
    (t.side = "sell" ↔ Msg.get message "buyer_role" = JValue.str "maker") ∧
    (Msg.get message "buyer_role" ≠ JValue.str "maker" → t.side = "buy") := by
  rcases normalize_shape message (NormReturn.bareDict t) h with
    ⟨t2, ht2, h1, h2, h3, h4, hside⟩ | ⟨o, ho, _⟩ | ⟨k, hk, _⟩
  · injection ht2 with ht2
    subst ht2
    by_cases hb : Msg.get message "buyer_role" = JValue.str "maker"
    · rw [if_pos hb] at hside
      exact ⟨⟨fun _ => hb, fun _ => hside⟩, fun hc => absurd hb hc⟩
    · rw [if_neg hb] at hside
      refine ⟨⟨fun hs => ?_, fun hm => absurd hm hb⟩, fun _ => hside⟩
      rw [hside] at hs
      exact absurd hs (by decide)
  · simp at ho
  · simp at hk

/-- Witness for C10 at a trade message with no `buyer_role` field. -/
theorem trade_side_sell_iff_buyer_maker_witness :
    tradeNoBuyerRole.side = "buy" :=
  (trade_side_sell_iff_buyer_maker msgNoBuyerRole tradeNoBuyerRole
    (by rfl)).2 (by decide)
